import Mathlib

/-!
Verification of the SmartClause mobile-money payment workflow.

This file gives a shallow embedding of the payment core of the repository:
the gateway client (`mpesa_handler.py`), the payment orchestrator
(`SmartClause_2.0/payment_flow.py`), the payment-related persistence
operations (`SmartClause_2.0/database.py`), the pricing table
(`SmartClause_2.0/subscription_manager.py`) and the session payment guard
(`payment_verification.py`), together with theorems settling the stated
properties of that code.

Modelling conventions:
* strings are `String` (phone numbers are handled as `List Char` so that the
  digit-filtering logic can be reasoned about by list induction);
* wall-clock time is an integer number of seconds; `datetime.now()` becomes an
  explicit `now : Int` parameter; 30 days = 2592000 s, 30 minutes = 1800 s;
* network traffic is an oracle: each gateway call receives the outcome the
  wire would deliver, `Except Unit r` (`.error` = the underlying HTTP/JSON
  machinery raised, `.ok` = a parsed response object); a polling loop receives
  one outcome per attempt, indexed by attempt number;
* a Python dict value that is absent or `None` is `Option.none`; `dict.get`
  with a default becomes `Option.getD`;
* Python exceptions are `Except Unit`; a `try/except` block is a `match` on
  the embedded outcome.
-/

namespace SmartClause

/-! ## Gateway client (`mpesa_handler.py`) -/

/-- `MpesaHandler._sanitize_phone_number`, digit-normalisation step: the body
after `phone_digits = ''.join(filter(str.isdigit, phone_number))`. -/
def normalizeDigits (d : List Char) : List Char :=
  if d.take 1 = ['0'] then ['2', '5', '4'] ++ d.drop 1
  else if d.take 1 = ['7'] ∧ d.length = 9 then ['2', '5', '4'] ++ d
  else if ¬ d.take 3 = ['2', '5', '4'] then
    (if d.length = 9 then ['2', '5', '4'] ++ d else d)
  else d

/-- `MpesaHandler._sanitize_phone_number`: filter to digits, normalise local
formats, then validate the canonical `254` + 12-digit form; an invalid result
raises `ValueError` (embedded as `Except.error`). -/
def sanitize_phone_number (raw : List Char) : Except Unit (List Char) :=
  let d := normalizeDigits (raw.filter Char.isDigit)
  if d.take 3 = ['2', '5', '4'] ∧ d.length = 12 then .ok d else .error ()

/-- Parsed JSON body of an STK-push initiation response (the fields the code
reads: `ResponseCode`, `CheckoutRequestID`, `errorMessage`). -/
structure StkResp where
  responseCode : Option String := none
  checkoutRequestID : Option String := none
  errorMessage : Option String := none
deriving Repr, DecidableEq

/-- Parsed JSON body of an STK-push status-query response (the fields the
code reads: `ResultCode`, `MpesaReceiptNumber`), each value already rendered
to the string the Python code compares against. -/
structure GwResp where
  resultCode : Option String := none
  mpesaReceiptNumber : Option String := none
deriving Repr, DecidableEq

/-- The user-facing message of `initiate_stk_push`'s `except ValueError`
branch (abbreviated; only its identity matters). -/
def stkValidationMessage : String :=
  "Invalid input. Please check your phone number and try again."

/-- The user-facing message of `initiate_stk_push`'s generic `except`
branch (abbreviated; only its identity matters). -/
def stkTransportMessage : String :=
  "An error occurred during payment initiation. Please try again later."

/-- `MpesaHandler.initiate_stk_push`: sanitises the phone number (a
`ValueError` yields the structured validation response), then performs the
HTTP POST, whose outcome is the `wire` oracle; any exception from the
transport/parsing yields the structured generic error response.  The
encryption round-trip and logging have no effect on the returned value and
are omitted. -/
def initiate_stk_push (phone : List Char) (wire : Except Unit StkResp) : StkResp :=
  match sanitize_phone_number phone with
  | .error _ => { responseCode := some "1", errorMessage := some stkValidationMessage }
  | .ok _ =>
    match wire with
    | .ok r => r
    | .error _ => { responseCode := some "1", errorMessage := some stkTransportMessage }

/-- `MpesaHandler.query_stk_push`: performs the HTTP POST (outcome given by
`wire`) and returns the parsed body; its `except` branch logs and re-raises,
so a transport/parsing exception propagates to the caller. -/
def query_stk_push (wire : Except Unit GwResp) : Except Unit GwResp :=
  match wire with
  | .ok r => .ok r
  | .error e => .error e

/-- The environment configuration read by `MpesaHandler.__init__` via
`os.getenv`; `none` models an unset variable, `some ""` an empty one (both
are falsy in the Python check). -/
structure MpesaConfig where
  business_shortcode : Option String := none
  till_number : Option String := none
  consumer_key : Option String := none
  consumer_secret : Option String := none
  access_token_url : Option String := none
  passkey : Option String := none
  stk_push_url : Option String := none
  query_status_url : Option String := none
  my_callback_url : Option String := none
deriving Repr, DecidableEq

/-- Python falsiness of an optional environment value. -/
def isMissing : Option String → Bool
  | none => true
  | some s => s = ""

/-- The `required_vars` list of `MpesaHandler.__init__` (note: it does not
contain `SAF_STK_PUSH_QUERY_API` / `query_status_url`). -/
def required_vars (c : MpesaConfig) : List (String × Option String) :=
  [("SAF_SHORTCODE", c.business_shortcode),
   ("SAF_TILL_NUMBER", c.till_number),
   ("SAF_CONSUMER_KEY", c.consumer_key),
   ("SAF_CONSUMER_SECRET", c.consumer_secret),
   ("SAF_ACCESS_TOKEN_API", c.access_token_url),
   ("SAF_PASS_KEY", c.passkey),
   ("SAF_STK_PUSH_API", c.stk_push_url),
   ("CALLBACK_URL", c.my_callback_url)]

/-- `missing_vars = [name for name, value in required_vars if not value]`. -/
def missing_vars (c : MpesaConfig) : List String :=
  ((required_vars c).filter (fun p => isMissing p.2)).map Prod.fst

/-- `MpesaHandler.get_mpesa_access_token`: a non-200 status, a body without
an `access_token` field, or a falsy/short token yields `None`; otherwise the
token.  (A transport exception re-raises and is handled by the caller's
oracle match.) -/
def get_mpesa_access_token (statusCode : Int) (body : Option String) : Option String :=
  if statusCode ≠ 200 then none
  else match body with
    | none => none
    | some tok => if tok = "" ∨ tok.length < 10 then none else some tok

/-- A constructed `MpesaHandler`: the configuration it captured plus the
access token obtained at construction time. -/
structure MpesaHandler where
  cfg : MpesaConfig
  access_token : String
deriving Repr, DecidableEq

/-- `MpesaHandler.__init__`: raises (`Except.error`) when any of the eight
`required_vars` is falsy, and otherwise performs the token exchange
(`tokenWire` is the HTTP outcome: status code and the `access_token` field of
the body, `Except.error` when the request itself raised); a missing/invalid
token also raises. -/
def mpesa_init (c : MpesaConfig) (tokenWire : Except Unit (Int × Option String)) :
    Except Unit MpesaHandler :=
  if missing_vars c = [] then
    match tokenWire with
    | .error _ => .error ()
    | .ok (code, body) =>
      match get_mpesa_access_token code body with
      | none => .error ()
      | some tok => .ok { cfg := c, access_token := tok }
  else .error ()

/-! ## Pricing (`subscription_manager.py`) -/

/-- One entry of the `PRICING` table. -/
structure TierConfig where
  amount : Int
  documents_per_month : Option Int := none
  name : String
  per_user : Bool
  min_seats : Option Int := none
  trial_days : Option Int := none
deriving Repr, DecidableEq

/-- The `PRICING` dict of `subscription_manager.py`, keyed by the
`SubscriptionTier` enum values; amounts are in KSh minor units (×100). -/
def PRICING : String → Option TierConfig
  | "trial" => some
    { amount := 0, documents_per_month := none,
      name := "Free Trial", per_user := false, trial_days := some 14 }
  | "individual" => some
    { amount := 850000, documents_per_month := some 50,
      name := "Individual", per_user := true }
  | "team" => some
    { amount := 650000, documents_per_month := some 100,
      name := "Team", per_user := true, min_seats := some 3 }
  | "enterprise" => some
    { amount := 500000, documents_per_month := none,
      name := "Enterprise", per_user := true, min_seats := some 10 }
  | _ => none

/-! ## Transaction store (`database.py`) -/

/-- The `metadata` JSON object written by
`DatabaseManager.create_payment_transaction`; a key whose value is absent or
null is `none`. -/
structure TxMetadata where
  organization_id : Option String := none
  seats : Option Int := none
  tier : Option String := none
deriving Repr, DecidableEq

/-- A row of the `payment_transactions` table (the columns the payment core
reads and writes). -/
structure PaymentTransaction where
  user_id : String
  amount : Int
  transaction_type : String
  checkout_request_id : Option String
  phone_number_hash : String
  credits_purchased : Int
  payment_status : String
  mpesa_receipt_number : Option String := none
  metadata : TxMetadata
deriving Repr, DecidableEq

/-- A row of the `organization_subscriptions` table as written by
`DatabaseManager.create_organization_subscription`. -/
structure OrgSubscription where
  organization_id : String
  subscription_tier : String
  status : String
  seats_purchased : Int
  seats_used : Int
  price_per_seat : Int
  current_period_start : Int
  current_period_end : Int
  next_billing_date : Int
deriving Repr, DecidableEq

/-- `DatabaseManager.create_payment_transaction`: inserts a new row with
`payment_status = "pending"` and the metadata object holding the optional
organization context. -/
def create_payment_transaction (txs : List PaymentTransaction)
    (user_id : String) (amount : Int) (transaction_type : String)
    (checkout_request_id : Option String) (phone_number_hash : String)
    (credits_purchased : Int) (organization_id : Option String)
    (seats : Option Int) (tier : Option String) : List PaymentTransaction :=
  txs ++ [{ user_id := user_id, amount := amount,
            transaction_type := transaction_type,
            checkout_request_id := checkout_request_id,
            phone_number_hash := phone_number_hash,
            credits_purchased := credits_purchased,
            payment_status := "pending",
            mpesa_receipt_number := none,
            metadata := { organization_id := organization_id,
                          seats := seats, tier := tier } }]

/-- `DatabaseManager.update_payment_status`: an unconditional
`UPDATE ... WHERE checkout_request_id = cid` setting `payment_status` (and
`mpesa_receipt_number` when a truthy receipt is supplied).  There is no
condition on the current status. -/
def update_payment_status (txs : List PaymentTransaction) (cid : String)
    (status : String) (receipt_number : Option String) : List PaymentTransaction :=
  txs.map fun t =>
    if t.checkout_request_id = some cid then
      { t with payment_status := status,
               mpesa_receipt_number :=
                 match receipt_number with
                 | some r => if r = "" then t.mpesa_receipt_number else some r
                 | none => t.mpesa_receipt_number }
    else t

/-- `DatabaseManager.get_payment_transaction_by_checkout_id`: a
`select ... .single()` — succeeds only when exactly one row matches;
otherwise the raised error is swallowed and `None` returned. -/
def get_payment_transaction_by_checkout_id (txs : List PaymentTransaction)
    (cid : String) : Option PaymentTransaction :=
  match txs.filter (fun t => t.checkout_request_id = some cid) with
  | [t] => some t
  | _ => none

/-- `DatabaseManager.create_organization_subscription`: inserts an active
subscription row with a 30-day billing period starting now. -/
def create_organization_subscription (subs : List OrgSubscription) (now : Int)
    (organization_id : String) (subscription_tier : String)
    (seats_purchased : Int) (price_per_seat : Int) : List OrgSubscription :=
  subs ++ [{ organization_id := organization_id,
             subscription_tier := subscription_tier,
             status := "active",
             seats_purchased := seats_purchased,
             seats_used := 0,
             price_per_seat := price_per_seat,
             current_period_start := now,
             current_period_end := now + 2592000,
             next_billing_date := now + 2592000 }]

/-! ## Orchestrator state -/

/-- The persistent state the orchestrator touches: the transaction table,
each user's credit balance, each user's individual-subscription end date and
the organization-subscription table. -/
structure GState where
  transactions : List PaymentTransaction
  credits : String → Int
  userSubEnd : String → Option Int
  orgSubs : List OrgSubscription

/-- Modelled from the spec: `SubscriptionManager.add_credits` is called by
`PaymentFlowManager.verify_and_process_payment` but its definition is not in
the sources (only this caller is); §6 of the spec names it
`applyCredits(userId, delta)` — "add `credits_purchased` to the user's
credit balance". -/
def add_credits (credits : String → Int) (user_id : String) (delta : Int) :
    String → Int :=
  fun u => if u = user_id then credits u + delta else credits u

/-- Modelled from the spec: `SubscriptionManager.upgrade_to_standard` is
called by `PaymentFlowManager.verify_and_process_payment` but its definition
is not in the sources (only this caller is); §6 of the spec names it
`activateSubscription(userId, endDate)` — "extend/activate the user's
individual subscription end-date". -/
def upgrade_to_standard (subEnd : String → Option Int) (user_id : String)
    (end_date : Int) : String → Option Int :=
  fun u => if u = user_id then some end_date else subEnd u

/-! ## Orchestrator (`payment_flow.py`) -/

/-- The dict returned by `PaymentFlowManager.verify_and_process_payment`
(the keys the code can set). -/
structure VerifyResult where
  success : Bool
  message : String
  already_processed : Bool := false
  credits_added : Option Int := none
  subscription_end_date : Option Int := none
  tier : Option String := none
deriving Repr, DecidableEq

/-- The timeout result of `verify_and_process_payment` (max attempts
reached). -/
def timeoutResult : VerifyResult :=
  { success := false,
    message := "Payment verification timed out. Please contact support if amount was deducted." }

/-- The failure result of `verify_and_process_payment` for a terminal
gateway code. -/
def cancelledResult : VerifyResult :=
  { success := false,
    message := "Payment was cancelled or failed. Please try again." }

/-- The success message of the `credit_purchase` branch. -/
def creditMessage (n : Int) : String := s!"Payment successful! {n} credit(s) added."

/-- The success message of the `subscription` branch. -/
def subscriptionMessage : String := "Payment successful! You now have Standard access."

/-- The success message of the `organization_subscription` branch
(`tier.title()` on the single-word tier names is capitalisation). -/
def orgMessage (tier : String) : String :=
  let t := tier.capitalize
  s!"Payment successful! {t} subscription active."

/-- One iteration body of the polling loop of
`PaymentFlowManager.verify_and_process_payment`, applied to a parsed
status-query response: either the iteration `return`s a result (`.inl`,
together with the state it leaves behind) or execution falls through to
sleep-and-retry (`.inr` with the state after the iteration).  `tx` is the
transaction dict loaded once before the loop (never re-read).  Note that a
result code `"0"` whose `transaction_type` dispatch returns nothing
(an `organization_subscription` without a truthy `organization_id` in the
metadata, or an unrecognised type) still marks the row `completed` and then
falls through. -/
def verify_step (cid user_id : String) (now : Int) (tx : PaymentTransaction)
    (resp : GwResp) (s : GState) : (VerifyResult × GState) ⊕ GState :=
  let result_code := resp.resultCode.getD ""
  if result_code = "0" then
    let receipt_number := resp.mpesaReceiptNumber.getD ""
    let s1 := { s with transactions :=
      update_payment_status s.transactions cid "completed" (some receipt_number) }
    if tx.transaction_type = "credit_purchase" then
      let n := tx.credits_purchased
      .inl ({ success := true, message := creditMessage n, credits_added := some n },
            { s1 with credits := add_credits s1.credits user_id n })
    else if tx.transaction_type = "subscription" then
      let end_date := now + 2592000
      .inl ({ success := true, message := subscriptionMessage,
              subscription_end_date := some end_date },
            { s1 with userSubEnd := upgrade_to_standard s1.userSubEnd user_id end_date })
    else if tx.transaction_type = "organization_subscription" then
      match tx.metadata.organization_id with
      | some organization_id =>
        if organization_id = "" then .inr s1
        else
          let seats := tx.metadata.seats.getD 1
          let tier := tx.metadata.tier.getD "individual"
          let price_per_seat := if seats > 0 then tx.amount.tdiv seats else 0
          let subs1 := create_organization_subscription s1.orgSubs now
            organization_id tier seats price_per_seat
          .inl ({ success := true, message := orgMessage tier, tier := some tier },
                { s1 with orgSubs := subs1 })
      | none => .inr s1
    else .inr s1
  else if result_code = "1032" ∨ result_code = "1037" ∨ result_code = "1" then
    .inl (cancelledResult,
          { s with transactions := update_payment_status s.transactions cid "failed" none })
  else .inr s

/-- The `while attempts < max_attempts` loop of
`PaymentFlowManager.verify_and_process_payment`.  `i` is the current value
of the `attempts` counter, `fuel = max_attempts - i` the remaining
iterations and `o` the per-attempt wire oracle for `query_stk_push`.  The
per-attempt `except` catches a raising `query_stk_push`, counts the attempt
and continues. -/
def verify_loop (cid user_id : String) (now : Int)
    (o : Nat → Except Unit GwResp) (tx : PaymentTransaction) :
    Nat → Nat → GState → VerifyResult × GState
  | _, 0, s => (timeoutResult, s)
  | i, fuel + 1, s =>
    match query_stk_push (o i) with
    | .error _ => verify_loop cid user_id now o tx (i + 1) fuel s
    | .ok resp =>
      match verify_step cid user_id now tx resp s with
      | .inl out => out
      | .inr s1 => verify_loop cid user_id now o tx (i + 1) fuel s1

/-- `PaymentFlowManager.verify_and_process_payment`: load the transaction
(missing → not-found result), short-circuit when already `completed`,
otherwise run the polling loop. -/
def verify_and_process_payment (cid user_id : String) (max_attempts : Nat)
    (now : Int) (o : Nat → Except Unit GwResp) (s : GState) :
    VerifyResult × GState :=
  match get_payment_transaction_by_checkout_id s.transactions cid with
  | none => ({ success := false, message := "Transaction not found" }, s)
  | some tx =>
    if tx.payment_status = "completed" then
      ({ success := true, already_processed := true,
         message := "Payment already processed" }, s)
    else verify_loop cid user_id now o tx 0 max_attempts s

/-- The dict returned by
`PaymentFlowManager.initiate_organization_purchase`. -/
structure InitResult where
  success : Bool
  message : String
  checkout_request_id : Option String := none
  amount : Option Int := none
deriving Repr, DecidableEq

/-- `PaymentFlowManager.initiate_organization_purchase`: look the tier up in
`PRICING`, compute the amount (individual forces 1 seat), send the STK push
(`initiate_stk_push` with the `wire` oracle; the phone hash computed by the
encryptor is the `phone_number_hash` parameter here), and on response code
`"0"` persist a pending `organization_subscription` transaction carrying the
organization context in its metadata. -/
def initiate_organization_purchase (user_id organization_id tier : String)
    (seats : Int) (phone : List Char) (phone_number_hash : String)
    (wire : Except Unit StkResp) (s : GState) : InitResult × GState :=
  match PRICING tier with
  | none => ({ success := false, message := "Invalid subscription tier" }, s)
  | some tier_config =>
    let price_per_seat := tier_config.amount
    let seats1 := if tier = "individual" then 1 else seats
    let amount := if tier = "individual" then price_per_seat else price_per_seat * seats
    let response := initiate_stk_push phone wire
    if response.responseCode = some "0" then
      let checkout_request_id := response.checkoutRequestID
      let txs1 := create_payment_transaction s.transactions user_id
        amount "organization_subscription" checkout_request_id phone_number_hash 0
        (some organization_id) (some seats1) (some tier)
      ({ success := true,
         checkout_request_id := checkout_request_id,
         amount := some amount,
         message := "Payment request sent. Please check your phone." },
       { s with transactions := txs1 })
    else
      ({ success := false,
         message := response.errorMessage.getD "Payment initiation failed" }, s)

/-! ## Session payment guard (`payment_verification.py`) -/

/-- The `PaymentStatus` dataclass. -/
structure PaymentStatus where
  document_id : String
  checkout_request_id : String
  amount : Int
  timestamp : Int
  verified : Bool := false
  attempts : Int := 0
deriving Repr, DecidableEq

/-- The payment-related Streamlit session state
(`payment_status`, `payment_verified`, `current_document_id`). -/
structure SessionState where
  payment_status : Option PaymentStatus
  payment_verified : Bool
  current_document_id : Option String
deriving Repr, DecidableEq

/-- The polling loop of `PaymentVerification.verify_payment`: result code
`"0"` verifies, `1032`/`1037` fails, anything else (and a raising
`query_stk_push`) counts the attempt and retries; exhausted attempts return
`False`. -/
def session_verify_loop (o : Nat → Except Unit GwResp) : Nat → Nat → Bool
  | _, 0 => false
  | i, fuel + 1 =>
    match query_stk_push (o i) with
    | .error _ => session_verify_loop o (i + 1) fuel
    | .ok resp =>
      let result_code := resp.resultCode.getD ""
      if result_code = "0" then true
      else if result_code = "1032" ∨ result_code = "1037" then false
      else session_verify_loop o (i + 1) fuel

/-- `PaymentVerification.verify_payment`: guard that the session holds a
`PaymentStatus` for this document, then poll the status of
`checkout_request_id` (whose per-attempt wire outcomes are the oracle `o`)
up to `max_attempts` times. -/
def verify_payment (o : Nat → Except Unit GwResp) (st : SessionState)
    (checkout_request_id document_id : String) (max_attempts : Nat) : Bool :=
  match st.payment_status with
  | none => false
  | some ps =>
    if ps.document_id ≠ document_id then false
    else session_verify_loop o 0 max_attempts

/-- `handle_download_request`: no current document denies; a session already
marked verified whose `PaymentStatus` matches the document authorises
immediately (before any age check); no `PaymentStatus` denies; a
`PaymentStatus` older than 30 minutes denies and clears it; otherwise a live
`verify_payment` (default budget of 5 attempts) decides, and on success the
session is marked verified. -/
def handle_download_request (o : Nat → Except Unit GwResp) (now : Int)
    (st : SessionState) : Bool × SessionState :=
  match st.current_document_id with
  | none => (false, st)
  | some document_id =>
    if st.payment_verified &&
        (match st.payment_status with
         | some ps => ps.document_id == document_id
         | none => false) then
      (true, st)
    else
      match st.payment_status with
      | none => (false, st)
      | some ps =>
        if now - ps.timestamp > 1800 then
          (false, { st with payment_status := none })
        else if verify_payment o st ps.checkout_request_id document_id 5 then
          (true, { st with payment_verified := true })
        else (false, st)

/-! ## Concrete fixtures used by the theorems below -/

/-- A successful status-query wire outcome with the given result code and
receipt number. -/
def gwOk (c r : String) : Except Unit GwResp :=
  .ok { resultCode := some c, mpesaReceiptNumber := some r }

/-- A status-query response carrying no `ResultCode` at all: the orchestrator
reads it as the empty code, i.e. still pending. -/
def gwPendingResp : GwResp := { resultCode := none, mpesaReceiptNumber := none }

/-- A wire oracle returning the success code on every attempt. -/
def oracleAllSuccess : Nat → Except Unit GwResp := fun _ => gwOk "0" "R1"

/-- A wire oracle returning the success code on the first attempt and the
user-cancelled code afterwards. -/
def oracleSuccessThenCancel : Nat → Except Unit GwResp
  | 0 => gwOk "0" "R1"
  | _ + 1 => gwOk "1032" ""

/-- A wire oracle whose first attempt raises in transport and whose later
attempts return the success code. -/
def oracleErrorThenSuccess : Nat → Except Unit GwResp
  | 0 => .error ()
  | _ + 1 => gwOk "0" "R1"

/-- A wire oracle whose first attempt reports still-pending (no result code)
and whose later attempts return the success code. -/
def oraclePendingThenSuccess : Nat → Except Unit GwResp
  | 0 => .ok gwPendingResp
  | _ + 1 => gwOk "0" "R1"

/-- A wire oracle always reporting a non-terminal (still processing) result
code. -/
def oracleAllPending : Nat → Except Unit GwResp := fun _ => gwOk "1001" ""

/-- A completed credit-purchase transaction row. -/
def txCompleted : PaymentTransaction :=
  { user_id := "u1", amount := 950, transaction_type := "credit_purchase",
    checkout_request_id := some "ws_done", phone_number_hash := "h",
    credits_purchased := 10, payment_status := "completed",
    mpesa_receipt_number := some "R0", metadata := {} }

/-- State holding only the completed transaction. -/
def sCompleted : GState :=
  { transactions := [txCompleted], credits := fun _ => 0,
    userSubEnd := fun _ => none, orgSubs := [] }

/-- A failed credit-purchase transaction row (terminal status). -/
def txFailed : PaymentTransaction :=
  { user_id := "u1", amount := 950, transaction_type := "credit_purchase",
    checkout_request_id := some "ws_f", phone_number_hash := "h",
    credits_purchased := 10, payment_status := "failed", metadata := {} }

/-- State holding only the failed transaction. -/
def sFailed : GState :=
  { transactions := [txFailed], credits := fun _ => 0,
    userSubEnd := fun _ => none, orgSubs := [] }

/-- A pending credit-purchase transaction row. -/
def txCredit : PaymentTransaction :=
  { user_id := "u1", amount := 6000, transaction_type := "credit_purchase",
    checkout_request_id := some "ws_c", phone_number_hash := "h",
    credits_purchased := 10, payment_status := "pending", metadata := {} }

/-- State holding only the pending credit-purchase transaction. -/
def sCredit : GState :=
  { transactions := [txCredit], credits := fun _ => 0,
    userSubEnd := fun _ => none, orgSubs := [] }

/-- A pending individual-subscription transaction row. -/
def txSub : PaymentTransaction :=
  { user_id := "u1", amount := 7500, transaction_type := "subscription",
    checkout_request_id := some "ws_s", phone_number_hash := "h",
    credits_purchased := 0, payment_status := "pending", metadata := {} }

/-- State holding only the pending subscription transaction. -/
def sSub : GState :=
  { transactions := [txSub], credits := fun _ => 0,
    userSubEnd := fun _ => none, orgSubs := [] }

/-- A pending organization-subscription transaction row whose metadata has
no `organization_id`. -/
def txOrgNoId : PaymentTransaction :=
  { user_id := "u1", amount := 1300000,
    transaction_type := "organization_subscription",
    checkout_request_id := some "ws_o", phone_number_hash := "h",
    credits_purchased := 0, payment_status := "pending",
    metadata := { organization_id := none, seats := some 2, tier := some "team" } }

/-- State holding only the no-organization-id transaction. -/
def sOrgNoId : GState :=
  { transactions := [txOrgNoId], credits := fun _ => 0,
    userSubEnd := fun _ => none, orgSubs := [] }

/-- A pending transaction row of a type unknown to the dispatch. -/
def txUnknownType : PaymentTransaction :=
  { user_id := "u1", amount := 100, transaction_type := "gift_card",
    checkout_request_id := some "ws_g", phone_number_hash := "h",
    credits_purchased := 0, payment_status := "pending", metadata := {} }

/-- State holding only the unknown-type transaction. -/
def sUnknownType : GState :=
  { transactions := [txUnknownType], credits := fun _ => 0,
    userSubEnd := fun _ => none, orgSubs := [] }

/-- The empty persistent state. -/
def sEmpty : GState :=
  { transactions := [], credits := fun _ => 0,
    userSubEnd := fun _ => none, orgSubs := [] }

/-- A successful STK-push initiation wire outcome for the organization
purchase scenario. -/
def orgWire : Except Unit StkResp :=
  .ok { responseCode := some "0", checkoutRequestID := some "ws_CO_9" }

/-- The organization purchase of the concrete scenario: tier `team`,
5 seats. -/
def orgInit : InitResult × GState :=
  initiate_organization_purchase "u1" "org1" "team" 5 "0712345678".toList "ph"
    orgWire sEmpty

/-- Verifying the organization purchase with a succeeding gateway. -/
def orgVerify : VerifyResult × GState :=
  verify_and_process_payment "ws_CO_9" "u1" 1 0 oracleAllSuccess orgInit.2

/-- A session `PaymentStatus` created at time 0 for document `d1`. -/
def psD1 : PaymentStatus :=
  { document_id := "d1", checkout_request_id := "ws_d1", amount := 500,
    timestamp := 0 }

/-- A session that already passed verification for document `d1`. -/
def stVerified : SessionState :=
  { payment_status := some psD1, payment_verified := true,
    current_document_id := some "d1" }

/-- The same session before any successful verification. -/
def stUnverified : SessionState :=
  { payment_status := some psD1, payment_verified := false,
    current_document_id := some "d1" }

/-- A configuration with every gateway variable set except the status-query
endpoint URL. -/
def cfgNoQueryUrl : MpesaConfig :=
  { business_shortcode := some "174379", till_number := some "12345",
    consumer_key := some "ck", consumer_secret := some "cs",
    access_token_url := some "https://token", passkey := some "pk",
    stk_push_url := some "https://stk", query_status_url := none,
    my_callback_url := some "https://cb" }

/-- A non-terminal status-query response: neither the success code nor a
known terminal-failure code. -/
def nonterminal (r : GwResp) : Prop :=
  (r.resultCode.getD "") ≠ "0" ∧
  ¬((r.resultCode.getD "") = "1032" ∨ (r.resultCode.getD "") = "1037" ∨
    (r.resultCode.getD "") = "1")

instance (r : GwResp) : Decidable (nonterminal r) := by
  unfold nonterminal
  infer_instance

/-! ## Helper lemmas -/

/-- After `update_payment_status` with a non-empty receipt, every row
matching the checkout request id carries the new status and the receipt. -/
theorem update_payment_status_mem (txs : List PaymentTransaction)
    (cid status r : String) (t : PaymentTransaction)
    (ht : t ∈ update_payment_status txs cid status (some r)) (hr : r ≠ "")
    (hcid : t.checkout_request_id = some cid) :
    t.payment_status = status ∧ t.mpesa_receipt_number = some r := by
  unfold update_payment_status at ht
  obtain ⟨u, hu, heq⟩ := List.mem_map.1 ht
  by_cases hc : u.checkout_request_id = some cid
  · rw [if_pos hc] at heq
    rw [← heq]
    exact ⟨rfl, by simp [hr]⟩
  · rw [if_neg hc] at heq
    rw [← heq] at hcid
    exact absurd hcid hc

/-- A non-terminal response leaves the loop body in the fall-through case
with the state untouched. -/
theorem verify_step_pending (cid user_id : String) (now : Int)
    (tx : PaymentTransaction) (resp : GwResp) (s : GState)
    (h : nonterminal resp) :
    verify_step cid user_id now tx resp s = .inr s := by
  unfold verify_step
  rw [if_neg h.1, if_neg h.2]

/-- If every remaining attempt answers with a non-terminal response, the
polling loop times out with the state untouched. -/
theorem verify_loop_all_pending (cid user_id : String) (now : Int)
    (o : Nat → Except Unit GwResp) (tx : PaymentTransaction) :
    ∀ fuel i s, (∀ j, j < fuel → ∃ r, o (i + j) = .ok r ∧ nonterminal r) →
      verify_loop cid user_id now o tx i fuel s = (timeoutResult, s) := by
  intro fuel
  induction fuel with
  | zero => intro i s _; rfl
  | succ fuel ih =>
    intro i s h
    obtain ⟨r, hr, hnt⟩ := h 0 (Nat.succ_pos fuel)
    rw [Nat.add_zero] at hr
    rw [verify_loop, hr]
    show (match verify_step cid user_id now tx r s with
          | .inl out => out
          | .inr s1 => verify_loop cid user_id now o tx (i + 1) fuel s1) =
         (timeoutResult, s)
    rw [verify_step_pending cid user_id now tx r s hnt]
    exact ih (i + 1) s fun j hj => by
      have hidx : i + 1 + j = i + (j + 1) := by omega
      rw [hidx]
      exact h (j + 1) (by omega)

/-! ## Claim theorems -/

/-- Claim C1: for every transaction whose stored `payment_status` is
`"completed"`, `verify_and_process_payment` on its checkout request id
returns `success = true` with `already_processed = true` and leaves the
whole persistent state (credit balances, subscription records,
organization-subscription records, transactions) unchanged, so a second
`verify` call on a transaction that succeeded applies the financial effect
exactly once. -/
theorem verify_already_completed_short_circuit
    (cid user_id : String) (max_attempts : Nat) (now : Int)
    (o : Nat → Except Unit GwResp) (s : GState) (tx : PaymentTransaction)
    (hfind : get_payment_transaction_by_checkout_id s.transactions cid = some tx)
    (hdone : tx.payment_status = "completed") :
    verify_and_process_payment cid user_id max_attempts now o s =
      ({ success := true, already_processed := true,
         message := "Payment already processed" }, s) := by
  unfold verify_and_process_payment
  rw [hfind]
  simp [hdone]

/-- Witness for C1: the short-circuit at a concrete completed
transaction. -/
theorem verify_already_completed_short_circuit_instance :
    verify_and_process_payment "ws_done" "u1" 6 0 oracleAllSuccess sCompleted =
      ({ success := true, already_processed := true,
         message := "Payment already processed" }, sCompleted) :=
  verify_already_completed_short_circuit "ws_done" "u1" 6 0 oracleAllSuccess
    sCompleted txCompleted rfl rfl

/-- Claim C2 (code bug): the claim states `payment_status` is monotonic
because every status write is conditioned on the status still being
`"pending"`; in the code `update_payment_status` is an unconditional update
and `verify_and_process_payment` only short-circuits on `"completed"`, so a
transaction whose stored status is the terminal `"failed"` is re-polled and,
when the gateway replies with the success code, rewritten to `"completed"` —
a transition out of a terminal state. -/
theorem verify_reopens_failed_transaction :
    sFailed.transactions.map (fun t => t.payment_status) = ["failed"] ∧
    (verify_and_process_payment "ws_f" "u1" 1 0 oracleAllSuccess
        sFailed).2.transactions.map (fun t => t.payment_status) = ["completed"] ∧
    (verify_and_process_payment "ws_f" "u1" 1 0 oracleAllSuccess
        sFailed).1.success = true ∧
    update_payment_status [txCompleted] "ws_done" "failed" none =
      [{ txCompleted with payment_status := "failed" }] := by
  refine ⟨rfl, ?_, ?_, ?_⟩ <;> decide

/-- Claim C5: when the gateway answers `"0"` for an
`organization_subscription` transaction with no `organization_id` in its
metadata (or a transaction of unrecognised type), the iteration marks the
row `completed` yet returns nothing and falls through to retry; a later
terminal-failure poll then re-marks the row `failed`, and exhausting the
attempts yields the timeout failure even though the stored row reads
`completed`. -/
theorem verify_fallthrough_after_marking_completed :
    verify_step "ws_o" "u1" 0 txOrgNoId
      { resultCode := some "0", mpesaReceiptNumber := some "R1" } sOrgNoId =
      .inr { sOrgNoId with transactions :=
        update_payment_status sOrgNoId.transactions "ws_o" "completed" (some "R1") } ∧
    (verify_and_process_payment "ws_o" "u1" 2 0 oracleSuccessThenCancel
        sOrgNoId).1 = cancelledResult ∧
    (verify_and_process_payment "ws_o" "u1" 2 0 oracleSuccessThenCancel
        sOrgNoId).2.transactions.map (fun t => t.payment_status) = ["failed"] ∧
    (verify_and_process_payment "ws_o" "u1" 2 0 oracleAllSuccess
        sOrgNoId).1 = timeoutResult ∧
    (verify_and_process_payment "ws_o" "u1" 2 0 oracleAllSuccess
        sOrgNoId).2.transactions.map (fun t => t.payment_status) = ["completed"] ∧
    (verify_and_process_payment "ws_g" "u1" 2 0 oracleAllSuccess
        sUnknownType).1 = timeoutResult ∧
    (verify_and_process_payment "ws_g" "u1" 2 0 oracleAllSuccess
        sUnknownType).2.transactions.map (fun t => t.payment_status) = ["completed"] :=
  ⟨rfl, by decide, by decide, by decide, by decide, by decide, by decide⟩

/-- Claim C8: `sanitize_phone_number` maps `"0712345678"`, `"712345678"`
and `"254712345678"` all to `"254712345678"`, rejects `"123"` with a
validation error, and every accepted value starts with `254` and is exactly
12 digits. -/
theorem sanitize_phone_number_canonical :
    (sanitize_phone_number "0712345678".toList = .ok "254712345678".toList) ∧
    (sanitize_phone_number "712345678".toList = .ok "254712345678".toList) ∧
    (sanitize_phone_number "254712345678".toList = .ok "254712345678".toList) ∧
    (sanitize_phone_number "123".toList = .error ()) ∧
    (∀ raw out, sanitize_phone_number raw = .ok out →
      out.take 3 = ['2', '5', '4'] ∧ out.length = 12 ∧
      out.all Char.isDigit = true) := by
  refine ⟨rfl, rfl, rfl, rfl, ?_⟩
  intro raw out h
  have hdig : (raw.filter Char.isDigit).all Char.isDigit = true :=
    List.all_eq_true.2 fun x hx => (List.mem_filter.1 hx).2
  have hnorm : (normalizeDigits (raw.filter Char.isDigit)).all Char.isDigit = true := by
    unfold normalizeDigits
    split
    · refine List.all_eq_true.2 fun x hx => ?_
      rcases List.mem_append.1 hx with hx | hx
      · fin_cases hx <;> decide
      · exact List.all_eq_true.1 hdig x (List.mem_of_mem_drop hx)
    · split
      · refine List.all_eq_true.2 fun x hx => ?_
        rcases List.mem_append.1 hx with hx | hx
        · fin_cases hx <;> decide
        · exact List.all_eq_true.1 hdig x hx
      · split
        · split
          · refine List.all_eq_true.2 fun x hx => ?_
            rcases List.mem_append.1 hx with hx | hx
            · fin_cases hx <;> decide
            · exact List.all_eq_true.1 hdig x hx
          · exact hdig
        · exact hdig
  simp only [sanitize_phone_number] at h
  split at h
  · rename_i hcond
    cases h
    exact ⟨hcond.1, hcond.2, hnorm⟩
  · cases h

/-- Witness for C8: the universal digit/shape guarantee applied at a
concrete accepted input. -/
theorem sanitize_phone_number_canonical_instance :
    "254722000111".toList.take 3 = ['2', '5', '4'] ∧
    "254722000111".toList.length = 12 ∧
    "254722000111".toList.all Char.isDigit = true :=
  sanitize_phone_number_canonical.2.2.2.2 "0722000111".toList
    "254722000111".toList rfl

/-- Claim C9: initiating an organization purchase for tier `team` with 5
seats charges `PRICING["team"].amount × 5` — per-seat 650000 minor units
(KSh 6,500) giving 3250000 minor units (KSh 32,500) — and a successful
verification creates an organization-subscription record with
`seats_purchased = 5`, `subscription_tier = "team"` and a 30-day billing
period. -/
theorem organization_purchase_team_five_seats :
    orgInit.1.success = true ∧
    orgInit.1.amount = some 3250000 ∧
    (PRICING "team").map (fun c => c.amount) = some 650000 ∧
    (3250000 : Int) = 650000 * 5 ∧
    (650000 : Int) = 6500 * 100 ∧
    (3250000 : Int) = 32500 * 100 ∧
    orgVerify.1.success = true ∧
    orgVerify.2.orgSubs =
      [{ organization_id := "org1", subscription_tier := "team",
         status := "active", seats_purchased := 5, seats_used := 0,
         price_per_seat := 650000, current_period_start := 0,
         current_period_end := 2592000, next_billing_date := 2592000 }] := by
  refine ⟨?_, ?_, ?_, ?_, ?_, ?_, ?_, ?_⟩ <;> decide

/-- Counterexample for C10: a configuration in which only the status-query
endpoint URL (`SAF_STK_PUSH_QUERY_API`) is missing constructs the gateway
client successfully — the `required_vars` check does not include it, so the
claim that construction fails for every missing required value, including
the status-query URL, is false. -/
theorem mpesa_init_accepts_missing_query_url :
    (mpesa_init cfgNoQueryUrl (.ok (200, some "atokenlongenough"))).isOk = true ∧
    cfgNoQueryUrl.query_status_url = none :=
  ⟨by decide, rfl⟩

/-- A required entry whose value is falsy makes the missing-variables list
non-empty. -/
theorem missing_vars_ne_nil (c : MpesaConfig) (p : String × Option String)
    (hp : p ∈ required_vars c) (hmiss : isMissing p.2 = true) :
    missing_vars c ≠ [] := by
  have hmem : p.1 ∈ missing_vars c :=
    List.mem_map.2 ⟨p, List.mem_filter.2 ⟨hp, hmiss⟩, rfl⟩
  intro hnil
  rw [hnil] at hmem
  exact List.not_mem_nil _ hmem

/-- Claim C10 as amended: construction fails immediately when any of the
eight checked configuration values — shortcode, till number, consumer
key/secret, token endpoint URL, passkey, STK push URL, callback URL — is
missing or empty; the status-query URL is not validated at construction. -/
theorem mpesa_init_fails_fast_on_checked_vars (c : MpesaConfig)
    (tokenWire : Except Unit (Int × Option String))
    (h : isMissing c.business_shortcode = true ∨ isMissing c.till_number = true ∨
      isMissing c.consumer_key = true ∨ isMissing c.consumer_secret = true ∨
      isMissing c.access_token_url = true ∨ isMissing c.passkey = true ∨
      isMissing c.stk_push_url = true ∨ isMissing c.my_callback_url = true) :
    mpesa_init c tokenWire = .error () := by
  have hm : missing_vars c ≠ [] := by
    rcases h with h | h | h | h | h | h | h | h
    · exact missing_vars_ne_nil c ("SAF_SHORTCODE", c.business_shortcode)
        (by simp [required_vars]) h
    · exact missing_vars_ne_nil c ("SAF_TILL_NUMBER", c.till_number)
        (by simp [required_vars]) h
    · exact missing_vars_ne_nil c ("SAF_CONSUMER_KEY", c.consumer_key)
        (by simp [required_vars]) h
    · exact missing_vars_ne_nil c ("SAF_CONSUMER_SECRET", c.consumer_secret)
        (by simp [required_vars]) h
    · exact missing_vars_ne_nil c ("SAF_ACCESS_TOKEN_API", c.access_token_url)
        (by simp [required_vars]) h
    · exact missing_vars_ne_nil c ("SAF_PASS_KEY", c.passkey)
        (by simp [required_vars]) h
    · exact missing_vars_ne_nil c ("SAF_STK_PUSH_API", c.stk_push_url)
        (by simp [required_vars]) h
    · exact missing_vars_ne_nil c ("CALLBACK_URL", c.my_callback_url)
        (by simp [required_vars]) h
  unfold mpesa_init
  rw [if_neg hm]

/-- Witness for C10: construction with a missing shortcode fails. -/
theorem mpesa_init_fails_fast_on_checked_vars_instance :
    mpesa_init { cfgNoQueryUrl with business_shortcode := none }
      (.ok (200, some "atokenlongenough")) = .error () :=
  mpesa_init_fails_fast_on_checked_vars _ _ (Or.inl (by decide))

/-- Claim C3: polling a pending transaction whose first status query answers
with result code `"0"` and a receipt number marks the row `completed` with
that receipt and applies the effect matching `transaction_type`: a
`credit_purchase` adds `credits_purchased` to the user's balance and reports
`credits_added`; a `subscription` sets the user's subscription end date to
30 days from now and returns it. -/
theorem verify_success_applies_matching_effect
    (cid user_id rn : String) (mA : Nat) (now : Int)
    (o : Nat → Except Unit GwResp) (s : GState) (tx : PaymentTransaction)
    (hfind : get_payment_transaction_by_checkout_id s.transactions cid = some tx)
    (hpend : tx.payment_status = "pending")
    (h0 : o 0 = .ok { resultCode := some "0", mpesaReceiptNumber := some rn })
    (hrn : rn ≠ "") :
    (tx.transaction_type = "credit_purchase" →
      verify_and_process_payment cid user_id (mA + 1) now o s =
        ({ success := true, message := creditMessage tx.credits_purchased,
           credits_added := some tx.credits_purchased },
         { transactions := update_payment_status s.transactions cid "completed" (some rn),
           credits := add_credits s.credits user_id tx.credits_purchased,
           userSubEnd := s.userSubEnd, orgSubs := s.orgSubs }) ∧
      (verify_and_process_payment cid user_id (mA + 1) now o s).2.credits user_id =
        s.credits user_id + tx.credits_purchased ∧
      (∀ t ∈ (verify_and_process_payment cid user_id (mA + 1) now o s).2.transactions,
        t.checkout_request_id = some cid →
        t.payment_status = "completed" ∧ t.mpesa_receipt_number = some rn)) ∧
    (tx.transaction_type = "subscription" →
      verify_and_process_payment cid user_id (mA + 1) now o s =
        ({ success := true, message := subscriptionMessage,
           subscription_end_date := some (now + 2592000) },
         { transactions := update_payment_status s.transactions cid "completed" (some rn),
           credits := s.credits,
           userSubEnd := upgrade_to_standard s.userSubEnd user_id (now + 2592000),
           orgSubs := s.orgSubs }) ∧
      (verify_and_process_payment cid user_id (mA + 1) now o s).2.userSubEnd user_id =
        some (now + 2592000) ∧
      (∀ t ∈ (verify_and_process_payment cid user_id (mA + 1) now o s).2.transactions,
        t.checkout_request_id = some cid →
        t.payment_status = "completed" ∧ t.mpesa_receipt_number = some rn)) := by
  have hrun : verify_and_process_payment cid user_id (mA + 1) now o s =
      (match verify_step cid user_id now tx
          { resultCode := some "0", mpesaReceiptNumber := some rn } s with
       | .inl out => out
       | .inr s1 => verify_loop cid user_id now o tx 1 mA s1) := by
    unfold verify_and_process_payment
    simp only [hfind]
    rw [hpend, if_neg (by decide : ¬("pending" = "completed"))]
    rw [verify_loop, h0]
    rfl
  constructor
  · intro ht
    have hstep : verify_step cid user_id now tx
        { resultCode := some "0", mpesaReceiptNumber := some rn } s =
        .inl ({ success := true, message := creditMessage tx.credits_purchased,
                credits_added := some tx.credits_purchased },
              { transactions := update_payment_status s.transactions cid "completed" (some rn),
                credits := add_credits s.credits user_id tx.credits_purchased,
                userSubEnd := s.userSubEnd, orgSubs := s.orgSubs }) := by
      unfold verify_step
      rw [ht]
      simp
    rw [hrun, hstep]
    refine ⟨rfl, ?_, ?_⟩
    · simp [add_credits]
    · intro t ht' hcid
      exact update_payment_status_mem s.transactions cid "completed" rn t ht' hrn hcid
  · intro ht
    have hstep : verify_step cid user_id now tx
        { resultCode := some "0", mpesaReceiptNumber := some rn } s =
        .inl ({ success := true, message := subscriptionMessage,
                subscription_end_date := some (now + 2592000) },
              { transactions := update_payment_status s.transactions cid "completed" (some rn),
                credits := s.credits,
                userSubEnd := upgrade_to_standard s.userSubEnd user_id (now + 2592000),
                orgSubs := s.orgSubs }) := by
      unfold verify_step
      rw [ht]
      simp
    rw [hrun, hstep]
    refine ⟨rfl, ?_, ?_⟩
    · simp [upgrade_to_standard]
    · intro t ht' hcid
      exact update_payment_status_mem s.transactions cid "completed" rn t ht' hrn hcid

/-- Witness for C3: the credit and subscription effects at concrete pending
transactions verified on the first poll. -/
theorem verify_success_applies_matching_effect_instance :
    (verify_and_process_payment "ws_c" "u1" 1 0 oracleAllSuccess sCredit).1 =
      { success := true, message := creditMessage 10, credits_added := some 10 } ∧
    (verify_and_process_payment "ws_c" "u1" 1 0 oracleAllSuccess sCredit).2.credits "u1" = 10 ∧
    (verify_and_process_payment "ws_s" "u1" 1 100 oracleAllSuccess sSub).1 =
      { success := true, message := subscriptionMessage,
        subscription_end_date := some 2592100 } ∧
    (verify_and_process_payment "ws_s" "u1" 1 100 oracleAllSuccess sSub).2.userSubEnd "u1" =
      some 2592100 := by
  have hc := (verify_success_applies_matching_effect "ws_c" "u1" "R1" 0 0
    oracleAllSuccess sCredit txCredit rfl rfl rfl (by decide)).1 rfl
  have hs := (verify_success_applies_matching_effect "ws_s" "u1" "R1" 0 100
    oracleAllSuccess sSub txSub rfl rfl rfl (by decide)).2 rfl
  refine ⟨?_, ?_, ?_, ?_⟩
  · rw [hc.1]; decide
  · rw [hc.2.1]; decide
  · rw [hs.1]; decide
  · rw [hs.2.1]; decide

/-- Claim C4: when every one of the `max_attempts` status polls answers with
a non-terminal result code, `verify_and_process_payment` on a pending
transaction returns the timeout failure and leaves the state untouched, so
the stored transaction still reads `pending` afterwards. -/
theorem verify_timeout_leaves_pending
    (cid user_id : String) (max_attempts : Nat) (now : Int)
    (o : Nat → Except Unit GwResp) (s : GState) (tx : PaymentTransaction)
    (hfind : get_payment_transaction_by_checkout_id s.transactions cid = some tx)
    (hpend : tx.payment_status = "pending")
    (hpoll : ∀ j, j < max_attempts → ∃ r, o j = .ok r ∧ nonterminal r) :
    verify_and_process_payment cid user_id max_attempts now o s =
      (timeoutResult, s) ∧
    (get_payment_transaction_by_checkout_id
        (verify_and_process_payment cid user_id max_attempts now o s).2.transactions
        cid).map (fun t => t.payment_status) = some "pending" := by
  have h1 : verify_and_process_payment cid user_id max_attempts now o s =
      (timeoutResult, s) := by
    unfold verify_and_process_payment
    simp only [hfind]
    rw [hpend, if_neg (by decide : ¬("pending" = "completed"))]
    exact verify_loop_all_pending cid user_id now o tx max_attempts 0 s
      fun j hj => by rw [Nat.zero_add]; exact hpoll j hj
  refine ⟨h1, ?_⟩
  rw [h1]
  simp [hfind, hpend]

/-- Witness for C4: three non-terminal polls at a concrete pending
transaction time out without mutating it. -/
theorem verify_timeout_leaves_pending_instance :
    verify_and_process_payment "ws_c" "u1" 3 0 oracleAllPending sCredit =
      (timeoutResult, sCredit) ∧
    (get_payment_transaction_by_checkout_id
        (verify_and_process_payment "ws_c" "u1" 3 0 oracleAllPending
          sCredit).2.transactions "ws_c").map (fun t => t.payment_status) =
      some "pending" :=
  verify_timeout_leaves_pending "ws_c" "u1" 3 0 oracleAllPending sCredit txCredit
    rfl rfl fun _ _ =>
      ⟨{ resultCode := some "1001", mpesaReceiptNumber := some "" }, rfl, by decide⟩

/-- Counterexample for C6: a transport failure inside `query_stk_push`
propagates as a raised exception (the `except` branch re-raises) instead of
being captured into a structured error response, contrary to the claim that
both gateway entry points capture such problems. -/
theorem query_stk_push_raises_on_transport_error :
    query_stk_push (.error ()) = .error () := rfl

/-- Claim C6 as amended: `initiate_stk_push` captures transport/parsing
problems into a structured response code `"1"`; `query_stk_push` re-raises
them, but the orchestrator's polling loop catches the exception per attempt,
counts it toward `max_attempts` and continues — an attempt whose wire
raises behaves exactly like an attempt answering still-pending, and only a
terminal gateway result code fails immediately. -/
theorem transport_error_attempt_equals_pending
    (phone : List Char) (cid user_id : String) (now : Int)
    (tx : PaymentTransaction) (o o' : Nat → Except Unit GwResp)
    (h : ∀ j, o' j = o j ∨ (o j = .error () ∧ o' j = .ok gwPendingResp)) :
    (initiate_stk_push phone (.error ())).responseCode = some "1" ∧
    ∀ fuel i s, verify_loop cid user_id now o tx i fuel s =
      verify_loop cid user_id now o' tx i fuel s := by
  constructor
  · unfold initiate_stk_push
    cases hs : sanitize_phone_number phone <;> rfl
  · intro fuel
    induction fuel with
    | zero => intro i s; rfl
    | succ fuel ih =>
      intro i s
      rcases h i with hs | ⟨he, hp⟩
      · rw [verify_loop, verify_loop, hs]
        cases hq : o i with
        | error e => exact ih (i + 1) s
        | ok resp =>
          show (match verify_step cid user_id now tx resp s with
                | .inl out => out
                | .inr s1 => verify_loop cid user_id now o tx (i + 1) fuel s1) =
               (match verify_step cid user_id now tx resp s with
                | .inl out => out
                | .inr s1 => verify_loop cid user_id now o' tx (i + 1) fuel s1)
          cases verify_step cid user_id now tx resp s with
          | inl out => rfl
          | inr s1 => exact ih (i + 1) s1
      · rw [verify_loop, verify_loop, he, hp]
        show verify_loop cid user_id now o tx (i + 1) fuel s =
             (match verify_step cid user_id now tx gwPendingResp s with
              | .inl out => out
              | .inr s1 => verify_loop cid user_id now o' tx (i + 1) fuel s1)
        rw [verify_step_pending cid user_id now tx gwPendingResp s (by decide)]
        exact ih (i + 1) s

/-- Witness for C6: a first-attempt transport failure produces the same loop
outcome as a first-attempt still-pending answer, at concrete oracles. -/
theorem transport_error_attempt_equals_pending_instance :
    (initiate_stk_push "0712345678".toList (.error ())).responseCode = some "1" ∧
    verify_loop "ws_c" "u1" 0 oracleErrorThenSuccess txCredit 0 2 sCredit =
      verify_loop "ws_c" "u1" 0 oraclePendingThenSuccess txCredit 0 2 sCredit := by
  have h := transport_error_attempt_equals_pending "0712345678".toList "ws_c" "u1"
    0 txCredit oracleErrorThenSuccess oraclePendingThenSuccess
    (fun j => by
      cases j with
      | zero => exact Or.inr ⟨rfl, rfl⟩
      | succ n => exact Or.inl rfl)
  exact ⟨h.1, h.2 2 0 sCredit⟩

/-- Counterexample for C7: a session whose `payment_verified` flag is
already set authorises the download 31 minutes after the `PaymentStatus`
was created — the already-verified early return precedes the 30-minute age
check, so authorisation is not denied at `T+31min` for previously verified
sessions as the claim requires. -/
theorem download_verified_session_bypasses_expiry :
    handle_download_request (fun _ => .error ()) 1860 stVerified =
      (true, stVerified) ∧
    (1860 : Int) - psD1.timestamp > 1800 :=
  ⟨rfl, by decide⟩

/-- Claim C7 as amended: with a `PaymentStatus` matching the current
document, a session already marked verified is authorised regardless of age;
an unverified session is denied (and the `PaymentStatus` cleared) once the
status is older than 30 minutes, and within 30 minutes a successful live
verification authorises — so the `T+29min` grant and `T+31min` denial hold
only for sessions not previously verified. -/
theorem download_guard_authorization_windows
    (st : SessionState) (ps : PaymentStatus) (doc : String)
    (o : Nat → Except Unit GwResp) (now : Int)
    (hdoc : st.current_document_id = some doc)
    (hps : st.payment_status = some ps)
    (hmatch : ps.document_id = doc) :
    (st.payment_verified = true →
      handle_download_request o now st = (true, st)) ∧
    (st.payment_verified = false → now - ps.timestamp > 1800 →
      handle_download_request o now st = (false, { st with payment_status := none })) ∧
    (st.payment_verified = false → now - ps.timestamp ≤ 1800 →
      o 0 = .ok { resultCode := some "0", mpesaReceiptNumber := none } →
      handle_download_request o now st = (true, { st with payment_verified := true })) := by
  refine ⟨fun hv => ?_, fun hv hage => ?_, fun hv hage h0 => ?_⟩
  · unfold handle_download_request
    rw [hdoc]
    simp [hps, hmatch, hv]
  · unfold handle_download_request
    rw [hdoc]
    simp [hps, hmatch, hv, hage]
  · unfold handle_download_request
    rw [hdoc]
    have hvp : verify_payment o st ps.checkout_request_id doc 5 = true := by
      unfold verify_payment
      simp only [hps]
      rw [if_neg (show ¬ ps.document_id ≠ doc by simp [hmatch])]
      show session_verify_loop o 0 (4 + 1) = true
      rw [session_verify_loop, h0]
      rfl
    simp only [hps, hmatch, hv, Bool.false_and, Bool.false_eq_true, if_false]
    rw [if_neg (by omega : ¬ now - ps.timestamp > 1800), if_pos hvp]

/-- Witness for C7: the three authorisation windows at concrete sessions —
verified at `T+31min` grants, unverified at `T+31min` denies and clears,
unverified at `T+29min` with a succeeding gateway grants. -/
theorem download_guard_authorization_windows_instance :
    handle_download_request (fun _ => .error ()) 1860
      { stVerified with payment_verified := true } =
      (true, { stVerified with payment_verified := true }) ∧
    handle_download_request (fun _ => .error ()) 1860 stUnverified =
      (false, { stUnverified with payment_status := none }) ∧
    handle_download_request
      (fun _ => .ok { resultCode := some "0", mpesaReceiptNumber := none })
      1740 stUnverified = (true, { stUnverified with payment_verified := true }) := by
  refine ⟨?_, ?_, ?_⟩
  · exact (download_guard_authorization_windows
      { stVerified with payment_verified := true } psD1 "d1"
      (fun _ => .error ()) 1860 rfl rfl rfl).1 rfl
  · exact (download_guard_authorization_windows stUnverified psD1 "d1"
      (fun _ => .error ()) 1860 rfl rfl rfl).2.1 rfl (by decide)
  · exact (download_guard_authorization_windows stUnverified psD1 "d1"
      (fun _ => .ok { resultCode := some "0", mpesaReceiptNumber := none })
      1740 rfl rfl rfl).2.2 rfl (by decide) rfl

end SmartClause
